import Mathlib

/-
Verification of the garmin-to-notion health-metrics sync
(`src/garmin-health-metrics.py`) against its specification.

The script is embedded shallowly:
* Provider payloads are JSON-like values (`JVal`); the Python value `None`
  is modelled by `JVal.jnull` (it behaves identically at every operation
  the script performs: truthiness, `in`, subscript, `.get`, `len`, `int`).
* The dynamic operations the script uses (`x and 'k' in x`, `d['k']`,
  `d.get(k, default)`, `lst[0]`, `len`, `int(...)`, `str(...)`) are
  embedded as functions into `Except PyErr _`, raising exactly where
  CPython raises on values of these shapes.
* The property dictionaries built by `create_notion_entry` and
  `update_notion_entry` become association lists in insertion order
  (the keys assigned are distinct string literals, so insertion order
  determines the dictionary completely).
* Notion and Garmin are external collaborators: the database is a list of
  records, query/create/update success is supplied as input, and each
  Garmin sub-fetch is an `Except Unit JVal` (exception or returned value).
-/

set_option autoImplicit false

namespace GarminSync

/-- JSON-like values of the provider payloads. `jnull` doubles as Python
`None` (see the header comment: the two are indistinguishable under every
operation the script applies to payloads). -/
inductive JVal where
  | jnull
  | jbool (b : Bool)
  | jnum (q : ℚ)
  | jstr (s : String)
  | jarr (l : List JVal)
  | jobj (l : List (String × JVal))

/-- Python exception kinds raised by the operations the script uses. -/
inductive PyErr where
  | typeError
  | keyError
  | indexError
  | attributeError
  | valueError
deriving DecidableEq

/-- First-match association-list lookup, the semantics of string-keyed
Python `dict` access (JSON objects cannot carry duplicate keys, so the
first match is the only match). -/
def jlookup (l : List (String × JVal)) (k : String) : Option JVal :=
  match l.find? (fun p => p.1 == k) with
  | some p => some p.2
  | none => none

/-- Python truthiness of a payload value. -/
def pyTruthy : JVal → Bool
  | .jnull => false
  | .jbool b => b
  | .jnum q => if q = 0 then false else true
  | .jstr s => s ≠ ""
  | .jarr l => !l.isEmpty
  | .jobj l => !l.isEmpty

/-- Substring test, the semantics of Python `pat in s` on strings. -/
def strContains (s pat : String) : Bool :=
  pat == "" || decide (1 < (s.splitOn pat).length)

/-- Python `k in x` for a string `k`: key membership on dicts, element
membership on lists, substring on strings, `TypeError` otherwise
(including on `None`). -/
def pyIn (k : String) : JVal → Except PyErr Bool
  | .jobj l => .ok (jlookup l k).isSome
  | .jarr l => .ok (l.any fun v => match v with | .jstr s => s == k | _ => false)
  | .jstr s => .ok (strContains s k)
  | _ => .error .typeError

/-- Python `x[k]` for a string key `k`: `KeyError` on dicts missing the
key, `TypeError` on every non-dict (string and list subscripts require
integers; `None` and numbers are not subscriptable). -/
def pyGetItemStr : JVal → String → Except PyErr JVal
  | .jobj l, k =>
    match jlookup l k with
    | some v => .ok v
    | none => .error .keyError
  | _, _ => .error .typeError

/-- Python `x[0]`: first element of a list, first character of a string
(`IndexError` when empty), `KeyError` on dicts (no integer key exists in
a string-keyed JSON object), `TypeError` otherwise. -/
def pyGetItemZero : JVal → Except PyErr JVal
  | .jarr [] => .error .indexError
  | .jarr (v :: _) => .ok v
  | .jstr s =>
    match s.data with
    | [] => .error .indexError
    | c :: _ => .ok (.jstr (String.mk [c]))
  | .jobj _ => .error .keyError
  | _ => .error .typeError

/-- Python `x.get(k, default)`: only dicts have a `.get` attribute;
every other value (including `None`) raises `AttributeError`. -/
def pyDictGet (x : JVal) (k : String) (default : JVal) : Except PyErr JVal :=
  match x with
  | .jobj l => .ok ((jlookup l k).getD default)
  | _ => .error .attributeError

/-- Python `len(x)`: defined on lists, strings and dicts, `TypeError`
otherwise. -/
def pyLen : JVal → Except PyErr Nat
  | .jarr l => .ok l.length
  | .jstr s => .ok s.length
  | .jobj l => .ok l.length
  | _ => .error .typeError

/-- Truncation of a rational toward zero, the behaviour of Python
`int(...)` on floats: `int(47.9) = 47`, `int(-47.9) = -47`. -/
def ratTrunc (q : ℚ) : Int :=
  if 0 ≤ q then q.floor else -((-q).floor)

/-- Python `int(x)`: truncation on numbers, `0/1` on booleans, decimal
parsing on strings (`ValueError` when unparsable), `TypeError` otherwise
(including on `None`, lists and dicts). -/
def pyInt : JVal → Except PyErr Int
  | .jnum q => .ok (ratTrunc q)
  | .jbool b => .ok (if b then 1 else 0)
  | .jstr s =>
    match s.toInt? with
    | some n => .ok n
    | none => .error .valueError
  | _ => .error .typeError

/-- Python `str(x)`. Exact on strings, `None` and booleans — the only
shapes `str` is applied to by the script in practice; the textual
rendering of numbers, lists and dicts is abstracted (no claim inspects
it, and both duplicated code paths apply the same function). -/
def pyStr : JVal → String
  | .jstr s => s
  | .jnull => "None"
  | .jbool b => if b then "True" else "False"
  | .jnum q => if q.den = 1 then toString q.num else toString q.num ++ "/" ++ toString q.den
  | .jarr _ => "<list>"
  | .jobj _ => "<dict>"

/-- A Notion property value as the script builds them: `{"number": v}`,
`{"rich_text": [{"text": {"content": s}}]}` or `{"date": {"start": s}}`. -/
inductive PropValue where
  | number (v : JVal)
  | richText (s : String)
  | date (s : String)

/-- A Notion properties dictionary in insertion order. -/
abbrev Props := List (String × PropValue)

/-- Whether a payload value is the JSON/Python null. -/
def isNull : JVal → Bool
  | .jnull => true
  | _ => false

/-- The recurring Python idiom
`if k in obj and obj[k] is not None: properties[name] = wrap(obj[k])`:
zero or one field appended, with the exceptions `in` and subscript can
raise. -/
def guardedField (obj : JVal) (k : String) (mk : JVal → String × PropValue) :
    Except PyErr Props :=
  match pyIn k obj with
  | .error e => .error e
  | .ok false => .ok []
  | .ok true =>
    match pyGetItemStr obj k with
    | .error e => .error e
    | .ok v => .ok (if isNull v then [] else [mk v])

/-- The HRV block of `create_notion_entry` (source lines 83–103):
`if hrv_data and 'hrvSummary' in hrv_data:` then three guarded leaf
extractions from `hrv_data['hrvSummary']`. -/
def createHrvFields (hrv_data : JVal) : Except PyErr Props :=
  if pyTruthy hrv_data then
    match pyIn "hrvSummary" hrv_data with
    | .error e => .error e
    | .ok false => .ok []
    | .ok true =>
      match pyGetItemStr hrv_data "hrvSummary" with
      | .error e => .error e
      | .ok hrv_summary =>
        match guardedField hrv_summary "lastNightAvg"
            (fun v => ("Last Night HRV", PropValue.number v)) with
        | .error e => .error e
        | .ok f1 =>
          match guardedField hrv_summary "weeklyAvg"
              (fun v => ("Weekly Avg HRV", PropValue.number v)) with
          | .error e => .error e
          | .ok f2 =>
            match guardedField hrv_summary "status"
                (fun v => ("HRV Status", PropValue.richText (pyStr v))) with
            | .error e => .error e
            | .ok f3 => .ok (f1 ++ f2 ++ f3)
  else .ok []

/-- The resting-heart-rate block of `create_notion_entry` (source lines
106–115): guarded by `rhr_data and 'allMetrics' in rhr_data`, then
`.get` chains with `{}`/`[]` defaults, then
`if rhr_list and len(rhr_list) > 0 and 'value' in rhr_list[0]:` storing
`int(rhr_list[0]['value'])`. -/
def createRhrFields (rhr_data : JVal) : Except PyErr Props :=
  if pyTruthy rhr_data then
    match pyIn "allMetrics" rhr_data with
    | .error e => .error e
    | .ok false => .ok []
    | .ok true =>
      match pyDictGet rhr_data "allMetrics" (.jobj []) with
      | .error e => .error e
      | .ok am =>
        match pyDictGet am "metricsMap" (.jobj []) with
        | .error e => .error e
        | .ok metrics_map =>
          match pyDictGet metrics_map "WELLNESS_RESTING_HEART_RATE" (.jarr []) with
          | .error e => .error e
          | .ok rhr_list =>
            if pyTruthy rhr_list then
              match pyLen rhr_list with
              | .error e => .error e
              | .ok n =>
                if 0 < n then
                  match pyGetItemZero rhr_list with
                  | .error e => .error e
                  | .ok first =>
                    match pyIn "value" first with
                    | .error e => .error e
                    | .ok false => .ok []
                    | .ok true =>
                      match pyGetItemStr first "value" with
                      | .error e => .error e
                      | .ok rhr_value =>
                        match pyInt rhr_value with
                        | .error e => .error e
                        | .ok m =>
                          .ok [("Resting Heart Rate", PropValue.number (.jnum (m : ℚ)))]
                else .ok []
            else .ok []
  else .ok []

/-- The VO2-max block of `create_notion_entry` (source lines 118–127):
guarded by `if vo2_data:`, two guarded leaf extractions. -/
def createVo2Fields (vo2_data : JVal) : Except PyErr Props :=
  if pyTruthy vo2_data then
    match guardedField vo2_data "vo2MaxValue"
        (fun v => ("VO2 Max", PropValue.number v)) with
    | .error e => .error e
    | .ok f1 =>
      match guardedField vo2_data "fitnessAge"
          (fun v => ("Fitness Age", PropValue.number v)) with
      | .error e => .error e
      | .ok f2 => .ok (f1 ++ f2)
  else .ok []

/-- The HRV block of `update_notion_entry` (source lines 154–172), a
verbatim duplicate of the create-side block. -/
def updateHrvFields (hrv_data : JVal) : Except PyErr Props :=
  if pyTruthy hrv_data then
    match pyIn "hrvSummary" hrv_data with
    | .error e => .error e
    | .ok false => .ok []
    | .ok true =>
      match pyGetItemStr hrv_data "hrvSummary" with
      | .error e => .error e
      | .ok hrv_summary =>
        match guardedField hrv_summary "lastNightAvg"
            (fun v => ("Last Night HRV", PropValue.number v)) with
        | .error e => .error e
        | .ok f1 =>
          match guardedField hrv_summary "weeklyAvg"
              (fun v => ("Weekly Avg HRV", PropValue.number v)) with
          | .error e => .error e
          | .ok f2 =>
            match guardedField hrv_summary "status"
                (fun v => ("HRV Status", PropValue.richText (pyStr v))) with
            | .error e => .error e
            | .ok f3 => .ok (f1 ++ f2 ++ f3)
  else .ok []

/-- The resting-heart-rate block of `update_notion_entry` (source lines
175–183), a verbatim duplicate of the create-side block. -/
def updateRhrFields (rhr_data : JVal) : Except PyErr Props :=
  if pyTruthy rhr_data then
    match pyIn "allMetrics" rhr_data with
    | .error e => .error e
    | .ok false => .ok []
    | .ok true =>
      match pyDictGet rhr_data "allMetrics" (.jobj []) with
      | .error e => .error e
      | .ok am =>
        match pyDictGet am "metricsMap" (.jobj []) with
        | .error e => .error e
        | .ok metrics_map =>
          match pyDictGet metrics_map "WELLNESS_RESTING_HEART_RATE" (.jarr []) with
          | .error e => .error e
          | .ok rhr_list =>
            if pyTruthy rhr_list then
              match pyLen rhr_list with
              | .error e => .error e
              | .ok n =>
                if 0 < n then
                  match pyGetItemZero rhr_list with
                  | .error e => .error e
                  | .ok first =>
                    match pyIn "value" first with
                    | .error e => .error e
                    | .ok false => .ok []
                    | .ok true =>
                      match pyGetItemStr first "value" with
                      | .error e => .error e
                      | .ok rhr_value =>
                        match pyInt rhr_value with
                        | .error e => .error e
                        | .ok m =>
                          .ok [("Resting Heart Rate", PropValue.number (.jnum (m : ℚ)))]
                else .ok []
            else .ok []
  else .ok []

/-- The VO2-max block of `update_notion_entry` (source lines 186–194), a
verbatim duplicate of the create-side block. -/
def updateVo2Fields (vo2_data : JVal) : Except PyErr Props :=
  if pyTruthy vo2_data then
    match guardedField vo2_data "vo2MaxValue"
        (fun v => ("VO2 Max", PropValue.number v)) with
    | .error e => .error e
    | .ok f1 =>
      match guardedField vo2_data "fitnessAge"
          (fun v => ("Fitness Age", PropValue.number v)) with
      | .error e => .error e
      | .ok f2 => .ok (f1 ++ f2)
  else .ok []

/-- The properties dictionary built by `create_notion_entry` (source
lines 74–127): the `Date` field first, then the three metric blocks in
source order.  An exception anywhere aborts the whole construction (the
function body is a single `try`). -/
def createProperties (date_str : String) (hrv_data rhr_data vo2_data : JVal) :
    Except PyErr Props :=
  match createHrvFields hrv_data with
  | .error e => .error e
  | .ok f1 =>
    match createRhrFields rhr_data with
    | .error e => .error e
    | .ok f2 =>
      match createVo2Fields vo2_data with
      | .error e => .error e
      | .ok f3 => .ok ([("Date", PropValue.date date_str)] ++ f1 ++ f2 ++ f3)

/-- Terminal state of one processed day: `created`/`updated` increment the
success tally, `failed` increments the error tally, `skipped` is the
`continue` before any Notion call. -/
inductive Outcome where
  | created
  | updated
  | skipped
  | failed
deriving DecidableEq

/-- The Notion calls a day can issue: the locator query, an invocation of
`create_notion_entry`, an invocation of `update_notion_entry`. -/
inductive DbCall where
  | query
  | createCall
  | updateCall
deriving DecidableEq

/-- A record in the Notion database: page id, the value of its `Date`
property, and its other properties. -/
structure NotionRecord where
  id : Nat
  date : String
  props : Props

/-- The number of records in the database whose `Date` equals the given
day key. -/
def countRecords (db : List NotionRecord) (date_str : String) : Nat :=
  (db.filter (fun rec => rec.date == date_str)).length

/-- The properties dictionary built by `update_notion_entry` (source
lines 150–194): the three metric blocks in source order, starting from
the empty dictionary — no `Date` field. -/
def updateProperties (hrv_data rhr_data vo2_data : JVal) : Except PyErr Props :=
  match updateHrvFields hrv_data with
  | .error e => .error e
  | .ok f1 =>
    match updateRhrFields rhr_data with
    | .error e => .error e
    | .ok f2 =>
      match updateVo2Fields vo2_data with
      | .error e => .error e
      | .ok f3 => .ok (f1 ++ f2 ++ f3)

/-- `entry_exists` (source lines 52–68): the exact-date query against the
database, returning the matching records; any exception from the query is
caught and yields `[]` ("no existing record").  `queryFails` models
whether `notion_client.databases.query` raises. -/
def entry_exists (queryFails : Bool) (db : List NotionRecord) (date_str : String) :
    List NotionRecord :=
  if queryFails then [] else db.filter (fun rec => rec.date == date_str)

/-- `create_notion_entry` (source lines 71–144) at the level of the
database: build the properties (any exception is caught, the function
returns `False`), then call `pages.create`; `apiOk` models whether that
external call succeeds.  A new page gets a fresh id. -/
def create_notion_entry (apiOk : Bool) (db : List NotionRecord) (date_str : String)
    (hrv_data rhr_data vo2_data : JVal) : Bool × List NotionRecord :=
  match createProperties date_str hrv_data rhr_data vo2_data with
  | .error _ => (false, db)
  | .ok properties =>
    if apiOk then (true, db ++ [⟨db.length, date_str, properties⟩]) else (false, db)

/-- Overwrite-or-append merge of a properties dictionary, the semantics
of a Notion page update: listed properties are replaced, unlisted ones
are kept. -/
def mergeProps (old new : Props) : Props :=
  old.filter (fun p => !(new.any (fun q => q.1 == p.1))) ++ new

/-- `update_notion_entry` (source lines 147–208) at the level of the
database: build the properties (exceptions caught, returning `False`),
then call `pages.update` on the page with the given id; `apiOk` models
whether that external call succeeds. -/
def update_notion_entry (apiOk : Bool) (db : List NotionRecord) (page_id : Nat)
    (hrv_data rhr_data vo2_data : JVal) : Bool × List NotionRecord :=
  match updateProperties hrv_data rhr_data vo2_data with
  | .error _ => (false, db)
  | .ok properties =>
    if apiOk then
      (true, db.map (fun rec =>
        if rec.id == page_id then { rec with props := mergeProps rec.props properties } else rec))
    else (false, db)

/-- The external circumstances of one day: the three Garmin sub-fetch
results (`Except.error` when `get_hrv_data`/`get_rhr_day`/
`get_max_metrics` raises, source lines 232–255), whether the Notion
locator query raises, and whether the Notion create/update API calls
succeed. -/
structure DayEnv where
  hrvFetch : Except Unit JVal
  rhrFetch : Except Unit JVal
  vo2Fetch : Except Unit JVal
  queryFails : Bool
  createApiOk : Bool
  updateApiOk : Bool

/-- The payload a sub-fetch leaves in its variable: the variable starts
as `None` and keeps that value when the fetch raises (the exception is
caught and logged as a warning). -/
def fetchResult : Except Unit JVal → JVal
  | .error _ => .jnull
  | .ok v => v

/-- `any([hrv_data, rhr_data, vo2_data])` (source line 258): whether the
day has any data to sync. -/
def hasData (env : DayEnv) : Bool :=
  pyTruthy (fetchResult env.hrvFetch) || pyTruthy (fetchResult env.rhrFetch) ||
    pyTruthy (fetchResult env.vo2Fetch)

/-- One iteration of the day loop of `main` (source lines 232–285):
fetch the three metrics, skip when no data is present, locate an
existing record, update the first match or create a new record.  Returns
the day's terminal outcome, the resulting database, and the Notion calls
issued. -/
def syncDay (env : DayEnv) (date_str : String) (db : List NotionRecord) :
    Outcome × List NotionRecord × List DbCall :=
  let hrv_data := fetchResult env.hrvFetch
  let rhr_data := fetchResult env.rhrFetch
  let vo2_data := fetchResult env.vo2Fetch
  if hasData env then
    let existing_entries := entry_exists env.queryFails db date_str
    match existing_entries with
    | entry :: _ =>
      let r := update_notion_entry env.updateApiOk db entry.id hrv_data rhr_data vo2_data
      ((if r.1 then Outcome.updated else Outcome.failed), r.2,
        [DbCall.query, DbCall.updateCall])
    | [] =>
      let r := create_notion_entry env.createApiOk db date_str hrv_data rhr_data vo2_data
      ((if r.1 then Outcome.created else Outcome.failed), r.2,
        [DbCall.query, DbCall.createCall])
  else
    (Outcome.skipped, db, [])

/-- The day loop of `main` (source lines 226–285) over a list of
per-day circumstances and day keys, threading the database and
accumulating `success_count` and `error_count` exactly as the script
does: `created`/`updated` add to the success tally, `failed` to the
error tally, `skipped` to neither.  Returns the outcomes in order and
the two tallies. -/
def runDays : List (DayEnv × String) → List NotionRecord → List Outcome × Nat × Nat
  | [], _ => ([], 0, 0)
  | day :: rest, db =>
    let r := syncDay day.1 day.2 db
    let rr := runDays rest r.2.1
    (r.1 :: rr.1,
      ((if r.1 = Outcome.created ∨ r.1 = Outcome.updated then 1 else 0) + rr.2.1,
        (if r.1 = Outcome.failed then 1 else 0) + rr.2.2))

/-- The exit signal of `main` (source line 293):
`return 0 if error_count == 0 else 1`. -/
def exitSignal (days : List (DayEnv × String)) (db : List NotionRecord) : Nat :=
  if (runDays days db).2.2 = 0 then 0 else 1

/-- The day offsets iterated by `main` (source lines 226–228):
`for days_ago in range(DAYS_BACK)`, offset `k` meaning the calendar day
`datetime.now() - timedelta(days=k)`, so offset `0` is today and offset
`1` is yesterday. -/
def processedOffsets (daysBack : Nat) : List Nat :=
  List.range daysBack

/-- The default day count (source line 25):
`DAYS_BACK = int(os.getenv('HEALTH_DAYS_BACK', 1))`, i.e. `1` when the
operator supplies nothing. -/
def daysBackDefault : Nat := 1

/-- Whether a payload value is a dict carrying the given key. -/
def hasKeyB (x : JVal) (k : String) : Bool :=
  match x with
  | .jobj l => (jlookup l k).isSome
  | _ => false

/-- The value sitting at the source path
`allMetrics.metricsMap["WELLNESS_RESTING_HEART_RATE"]` of a
resting-heart-rate payload, when every intermediate node is a dict. -/
def wellnessList (r : JVal) : Option JVal :=
  match r with
  | .jobj l =>
    match jlookup l "allMetrics" with
    | some (.jobj m) =>
      match jlookup m "metricsMap" with
      | some (.jobj mm) => jlookup mm "WELLNESS_RESTING_HEART_RATE"
      | _ => none
    | _ => none
  | _ => none

/-- Dict-shaped HRV payloads: absent, or a dict whose `hrvSummary`
(when present) is itself a dict.  This is the domain on which the spec
promises the mapper is total; a null or otherwise non-dict `hrvSummary`
value is outside it. -/
def hrvSafe : JVal → Bool
  | .jnull => true
  | .jobj l =>
    match jlookup l "hrvSummary" with
    | none => true
    | some (.jobj _) => true
    | some _ => false
  | _ => false

/-- A safe first element of the resting-heart-rate metrics list: a dict
whose `value`, when present, is something `int(...)` accepts — a number,
a boolean, or an integer-format string.  (Unlike the other leaves, this
leaf is not null-checked by the script: a null or non-convertible value
here makes `int(rhr_value)` raise.) -/
def rhrEntrySafe : JVal → Bool
  | .jobj l =>
    match jlookup l "value" with
    | none => true
    | some (.jnum _) => true
    | some (.jbool _) => true
    | some (.jstr s) => s.toInt?.isSome
    | some _ => false
  | _ => false

/-- Dict-shaped resting-heart-rate payloads: absent, or dicts all the
way down the source path, the metrics list empty or led by a safe
entry. -/
def rhrSafe : JVal → Bool
  | .jnull => true
  | .jobj l =>
    match jlookup l "allMetrics" with
    | none => true
    | some (.jobj m) =>
      match jlookup m "metricsMap" with
      | none => true
      | some (.jobj mm) =>
        match jlookup mm "WELLNESS_RESTING_HEART_RATE" with
        | none => true
        | some (.jarr []) => true
        | some (.jarr (f :: _)) => rhrEntrySafe f
        | some _ => false
      | some _ => false
    | some _ => false
  | _ => false

/-- Dict-shaped VO2-max payloads: absent or a dict (its leaves may be
anything, they are only null-checked and stored). -/
def vo2Safe : JVal → Bool
  | .jnull => true
  | .jobj _ => true
  | _ => false

/-- The value at the HRV source path `hrvSummary.<k>`, when every
intermediate node is a dict; `none` when any key along the path is
missing. -/
def hrvLeaf (h : JVal) (k : String) : Option JVal :=
  match h with
  | .jobj l =>
    match jlookup l "hrvSummary" with
    | some (.jobj m) => jlookup m k
    | _ => none
  | _ => none

/-- The value at the VO2 source path `<k>` (the VO2 payload's paths are
one key deep); `none` when the payload is absent or the key missing. -/
def vo2Leaf (v : JVal) (k : String) : Option JVal :=
  match v with
  | .jobj l => jlookup l k
  | _ => none

/-- The first element of the `WELLNESS_RESTING_HEART_RATE` metrics list,
when the path down to a non-empty list is fully present. -/
def rhrFirstEntry (r : JVal) : Option JVal :=
  match wellnessList r with
  | some (.jarr (f :: _)) => some f
  | _ => none

/-- The value at the full resting-heart-rate source path
`allMetrics.metricsMap["WELLNESS_RESTING_HEART_RATE"][0].value`;
`none` when any key along the path is missing or the list is empty. -/
def rhrValueLeaf (r : JVal) : Option JVal :=
  match rhrFirstEntry r with
  | some (.jobj fl) => jlookup fl "value"
  | _ => none

/-- The HRV blocks of `create_notion_entry` and `update_notion_entry`
are verbatim duplicates. -/
theorem createHrvFields_eq_updateHrvFields : createHrvFields = updateHrvFields := by
  funext x; unfold createHrvFields updateHrvFields; rfl

/-- The resting-heart-rate blocks of the two functions are verbatim
duplicates. -/
theorem createRhrFields_eq_updateRhrFields : createRhrFields = updateRhrFields := by
  funext x; unfold createRhrFields updateRhrFields; rfl

/-- The VO2-max blocks of the two functions are verbatim duplicates. -/
theorem createVo2Fields_eq_updateVo2Fields : createVo2Fields = updateVo2Fields := by
  funext x; unfold createVo2Fields updateVo2Fields; rfl

/-- The create-side properties are exactly the update-side properties
with the `Date` field prepended, including identical exception
behaviour. -/
theorem createProps_eq_date_cons_updateProps (d : String) (h r v : JVal) :
    createProperties d h r v =
      Except.map (fun l => ("Date", PropValue.date d) :: l) (updateProperties h r v) := by
  unfold createProperties updateProperties
  rw [createHrvFields_eq_updateHrvFields, createRhrFields_eq_updateRhrFields,
    createVo2Fields_eq_updateVo2Fields]
  cases h1 : updateHrvFields h <;> cases h2 : updateRhrFields r <;>
    cases h3 : updateVo2Fields v <;> simp [h1, h2, h3, Except.map]

/-- A guarded leaf extraction yields either no field or the single field
built by its constructor. -/
theorem guardedField_ok_shape {obj : JVal} {k : String} {mk : JVal → String × PropValue}
    {ps : Props} (hps : guardedField obj k mk = Except.ok ps) :
    ps = [] ∨ ∃ w, ps = [mk w] := by
  unfold guardedField at hps
  repeat' split at hps
  all_goals try exact Except.noConfusion hps
  all_goals injection hps with hips
  all_goals subst hips
  all_goals first
    | exact Or.inl rfl
    | exact Or.inr ⟨_, rfl⟩

/-- Every field the update-side HRV block emits carries one of the three
HRV field names. -/
theorem updateHrvFields_keys {h : JVal} {ps : Props}
    (hps : updateHrvFields h = Except.ok ps) :
    ∀ p ∈ ps, p.1 = "Last Night HRV" ∨ p.1 = "Weekly Avg HRV" ∨ p.1 = "HRV Status" := by
  unfold updateHrvFields at hps
  repeat' split at hps
  all_goals try exact Except.noConfusion hps
  all_goals injection hps with hips
  all_goals subst hips
  all_goals try (intro p hp; cases hp)
  rename_i x1 f1 hf1 x2 f2 hf2 x3 f3 hf3
  intro p hp
  rcases List.mem_append.mp hp with hp' | hp'
  · rcases List.mem_append.mp hp' with hp'' | hp''
    · rcases guardedField_ok_shape hf1 with rfl | ⟨w, rfl⟩ <;> simp_all
    · rcases guardedField_ok_shape hf2 with rfl | ⟨w, rfl⟩ <;> simp_all
  · rcases guardedField_ok_shape hf3 with rfl | ⟨w, rfl⟩ <;> simp_all

/-- Every field the update-side resting-heart-rate block emits is the
single `Resting Heart Rate` field. -/
theorem updateRhrFields_keys {r : JVal} {ps : Props}
    (hps : updateRhrFields r = Except.ok ps) :
    ∀ p ∈ ps, p.1 = "Resting Heart Rate" := by
  unfold updateRhrFields at hps
  repeat' split at hps
  all_goals try exact Except.noConfusion hps
  all_goals injection hps with hips
  all_goals subst hips
  all_goals simp

/-- Every field the update-side VO2-max block emits carries one of the
two VO2 field names. -/
theorem updateVo2Fields_keys {v : JVal} {ps : Props}
    (hps : updateVo2Fields v = Except.ok ps) :
    ∀ p ∈ ps, p.1 = "VO2 Max" ∨ p.1 = "Fitness Age" := by
  unfold updateVo2Fields at hps
  repeat' split at hps
  all_goals try exact Except.noConfusion hps
  all_goals injection hps with hips
  all_goals subst hips
  all_goals try (intro p hp; cases hp)
  rename_i x1 f1 hf1 x2 f2 hf2
  intro p hp
  rcases List.mem_append.mp hp with hp' | hp'
  · rcases guardedField_ok_shape hf1 with rfl | ⟨w, rfl⟩ <;> simp_all
  · rcases guardedField_ok_shape hf2 with rfl | ⟨w, rfl⟩ <;> simp_all

/-- Lookup in the empty dict finds nothing. -/
theorem jlookup_nil (k : String) : jlookup [] k = none := rfl

/-- A guarded leaf extraction on a dict never raises: it yields its
single field exactly when the key is present with a non-null value. -/
theorem guardedField_obj_eq (m : List (String × JVal)) (k : String)
    (mk : JVal → String × PropValue) :
    guardedField (.jobj m) k mk = Except.ok (
      match jlookup m k with
      | some v => if isNull v then [] else [mk v]
      | none => []) := by
  unfold guardedField
  cases hlu : jlookup m k with
  | none => simp [pyIn, hlu]
  | some w => simp [pyIn, pyGetItemStr, hlu]

/-- The HRV block on a dict payload whose `hrvSummary` is a dict: each
leaf contributes its field exactly when present and non-null. -/
theorem updateHrvFields_obj_eq (l m : List (String × JVal))
    (hlu : jlookup l "hrvSummary" = some (.jobj m)) :
    updateHrvFields (.jobj l) = Except.ok (
      (match jlookup m "lastNightAvg" with
       | some v => if isNull v then [] else [("Last Night HRV", PropValue.number v)]
       | none => []) ++
      (match jlookup m "weeklyAvg" with
       | some v => if isNull v then [] else [("Weekly Avg HRV", PropValue.number v)]
       | none => []) ++
      (match jlookup m "status" with
       | some v => if isNull v then [] else [("HRV Status", PropValue.richText (pyStr v))]
       | none => [])) := by
  have hne : pyTruthy (.jobj l) = true := by
    cases l with
    | nil => simp [jlookup] at hlu
    | cons a t => rfl
  unfold updateHrvFields
  simp [hne, pyIn, pyGetItemStr, hlu, guardedField_obj_eq]

/-- The VO2 block on a dict payload: each leaf contributes its field
exactly when present and non-null. -/
theorem updateVo2Fields_obj_eq (l : List (String × JVal)) :
    updateVo2Fields (.jobj l) = Except.ok (
      (match jlookup l "vo2MaxValue" with
       | some w => if isNull w then [] else [("VO2 Max", PropValue.number w)]
       | none => []) ++
      (match jlookup l "fitnessAge" with
       | some w => if isNull w then [] else [("Fitness Age", PropValue.number w)]
       | none => [])) := by
  unfold updateVo2Fields
  split
  · simp [guardedField_obj_eq]
  · rename_i hpt
    cases l with
    | nil => simp [jlookup_nil]
    | cons a t => simp [pyTruthy] at hpt

/-- Exact output of the HRV block on dict-shaped payloads: one field per
fully-present, non-null leaf of the `hrvSummary` path — a key missing at
any depth of a path contributes nothing, and no exception is raised. -/
theorem updateHrvFields_char (h : JVal) (hs : hrvSafe h = true) :
    updateHrvFields h = Except.ok (
      (match hrvLeaf h "lastNightAvg" with
       | some v => if isNull v then [] else [("Last Night HRV", PropValue.number v)]
       | none => []) ++
      (match hrvLeaf h "weeklyAvg" with
       | some v => if isNull v then [] else [("Weekly Avg HRV", PropValue.number v)]
       | none => []) ++
      (match hrvLeaf h "status" with
       | some v => if isNull v then [] else [("HRV Status", PropValue.richText (pyStr v))]
       | none => [])) := by
  cases h with
  | jnull => rfl
  | jbool b => simp [hrvSafe] at hs
  | jnum q => simp [hrvSafe] at hs
  | jstr s => simp [hrvSafe] at hs
  | jarr l => simp [hrvSafe] at hs
  | jobj l =>
    cases hlu : jlookup l "hrvSummary" with
    | none =>
      have h0 : updateHrvFields (.jobj l) = Except.ok [] := by
        unfold updateHrvFields
        split
        · simp [pyIn, hlu]
        · rfl
      rw [h0]
      simp [hrvLeaf, hlu]
    | some hsv =>
      have hm : ∃ m, hsv = JVal.jobj m := by
        cases hsv <;> simp_all [hrvSafe, hlu]
      obtain ⟨m, rfl⟩ := hm
      rw [updateHrvFields_obj_eq l m hlu]
      simp [hrvLeaf, hlu]

/-- Exact output of the VO2 block on dict-shaped payloads. -/
theorem updateVo2Fields_char (v : JVal) (hs : vo2Safe v = true) :
    updateVo2Fields v = Except.ok (
      (match vo2Leaf v "vo2MaxValue" with
       | some w => if isNull w then [] else [("VO2 Max", PropValue.number w)]
       | none => []) ++
      (match vo2Leaf v "fitnessAge" with
       | some w => if isNull w then [] else [("Fitness Age", PropValue.number w)]
       | none => [])) := by
  cases v with
  | jnull => rfl
  | jbool b => simp [vo2Safe] at hs
  | jnum q => simp [vo2Safe] at hs
  | jstr s => simp [vo2Safe] at hs
  | jarr l => simp [vo2Safe] at hs
  | jobj l =>
    rw [updateVo2Fields_obj_eq l]
    simp [vo2Leaf]

/-- Exact output of the resting-heart-rate block on dict-shaped
payloads: the single field exactly when the full source path down to a
convertible `value` is present; a key missing at any depth, or an empty
metrics list, contributes nothing, and no exception is raised. -/
theorem updateRhrFields_char (r : JVal) (hs : rhrSafe r = true) :
    updateRhrFields r = Except.ok (
      match rhrValueLeaf r with
      | none => []
      | some v =>
        match pyInt v with
        | .ok n => [("Resting Heart Rate", PropValue.number (.jnum (n : ℚ)))]
        | .error _ => []) := by
  cases r with
  | jnull => rfl
  | jbool b => simp [rhrSafe] at hs
  | jnum q => simp [rhrSafe] at hs
  | jstr s => simp [rhrSafe] at hs
  | jarr l => simp [rhrSafe] at hs
  | jobj l =>
    cases hlu : jlookup l "allMetrics" with
    | none =>
      unfold updateRhrFields
      split
      · simp [pyIn, hlu, rhrValueLeaf, rhrFirstEntry, wellnessList]
      · simp [rhrValueLeaf, rhrFirstEntry, wellnessList, hlu]
    | some am =>
      have ham : ∃ m, am = JVal.jobj m := by
        cases am <;> simp_all [rhrSafe, hlu]
      obtain ⟨m, rfl⟩ := ham
      unfold updateRhrFields
      split
      case isFalse =>
        rename_i hpt
        cases l with
        | nil => simp [jlookup] at hlu
        | cons a t => simp [pyTruthy] at hpt
      case isTrue =>
      cases hmm : jlookup m "metricsMap" with
      | none =>
        simp [pyIn, pyDictGet, hlu, hmm, jlookup_nil, pyTruthy,
          rhrValueLeaf, rhrFirstEntry, wellnessList]
      | some mv =>
        have hmv : ∃ mm, mv = JVal.jobj mm := by
          cases mv <;> simp_all [rhrSafe, hlu, hmm]
        obtain ⟨mm, rfl⟩ := hmv
        cases hw : jlookup mm "WELLNESS_RESTING_HEART_RATE" with
        | none =>
          simp [pyIn, pyDictGet, hlu, hmm, hw, pyTruthy,
            rhrValueLeaf, rhrFirstEntry, wellnessList]
        | some w =>
          cases w with
          | jnull => simp_all [rhrSafe, hlu, hmm, hw]
          | jbool b => simp_all [rhrSafe, hlu, hmm, hw]
          | jnum q => simp_all [rhrSafe, hlu, hmm, hw]
          | jstr s => simp_all [rhrSafe, hlu, hmm, hw]
          | jobj o => simp_all [rhrSafe, hlu, hmm, hw]
          | jarr lst =>
            cases lst with
            | nil =>
              simp [pyIn, pyDictGet, hlu, hmm, hw, pyTruthy,
                rhrValueLeaf, rhrFirstEntry, wellnessList]
            | cons f rest =>
              have hf : ∃ fl, f = JVal.jobj fl := by
                cases f <;> simp_all [rhrSafe, rhrEntrySafe, hlu, hmm, hw]
              obtain ⟨fl, rfl⟩ := hf
              cases hv : jlookup fl "value" with
              | none =>
                simp [pyIn, pyDictGet, hlu, hmm, hw, pyTruthy, pyLen, pyGetItemZero,
                  hv, rhrValueLeaf, rhrFirstEntry, wellnessList]
              | some fv =>
                have hok : ∃ n, pyInt fv = Except.ok n := by
                  cases fv with
                  | jnum q => exact ⟨ratTrunc q, rfl⟩
                  | jbool b => exact ⟨if b then 1 else 0, rfl⟩
                  | jstr s =>
                    have hss : s.toInt?.isSome = true := by
                      simp_all [rhrSafe, rhrEntrySafe, hlu, hmm, hw, hv]
                    obtain ⟨n, hn2⟩ := Option.isSome_iff_exists.mp hss
                    exact ⟨n, by simp [pyInt, hn2]⟩
                  | jnull => simp_all [rhrSafe, rhrEntrySafe, hlu, hmm, hw, hv]
                  | jarr a => simp_all [rhrSafe, rhrEntrySafe, hlu, hmm, hw, hv]
                  | jobj o => simp_all [rhrSafe, rhrEntrySafe, hlu, hmm, hw, hv]
                obtain ⟨n, hn⟩ := hok
                simp [pyIn, pyDictGet, hlu, hmm, hw, pyTruthy, pyLen, pyGetItemZero,
                  hv, pyGetItemStr, hn, rhrValueLeaf, rhrFirstEntry, wellnessList]

/-- A leaf-match component contributes at most its own field name. -/
theorem mem_leafMatch_keys {name1 name2 : String} {mkv : JVal → PropValue}
    {o : Option JVal} (hne : name1 ≠ name2) :
    name1 ∉ (match o with
      | some v => if isNull v then [] else [(name2, mkv v)]
      | none => ([] : Props)).map Prod.fst := by
  cases o with
  | none => simp
  | some v => by_cases hv : isNull v <;> simp [hv, hne]

/-- The whole update-side mapper never raises on dict-shaped
payloads. -/
theorem updateProperties_ok_of_safe (h r v : JVal) (hh : hrvSafe h = true)
    (hr : rhrSafe r = true) (hv : vo2Safe v = true) :
    ∃ ps, updateProperties h r v = Except.ok ps := by
  unfold updateProperties
  rw [updateHrvFields_char h hh, updateRhrFields_char r hr, updateVo2Fields_char v hv]
  exact ⟨_, rfl⟩

/-- When the `hrvSummary` key is absent the HRV block emits nothing. -/
theorem updateHrvFields_no_key (h : JVal) (hs : hrvSafe h = true)
    (hk : hasKeyB h "hrvSummary" = false) : updateHrvFields h = Except.ok [] := by
  cases h with
  | jnull => rfl
  | jbool b => simp [hrvSafe] at hs
  | jnum q => simp [hrvSafe] at hs
  | jstr s => simp [hrvSafe] at hs
  | jarr l => simp [hrvSafe] at hs
  | jobj l =>
    have hlu : jlookup l "hrvSummary" = none := by
      cases hlu2 : jlookup l "hrvSummary" <;> simp_all [hasKeyB]
    unfold updateHrvFields
    split
    · simp [pyIn, hlu]
    · rfl

/-- When the `allMetrics` key is absent the resting-heart-rate block
emits nothing. -/
theorem updateRhrFields_no_key (r : JVal) (hs : rhrSafe r = true)
    (hk : hasKeyB r "allMetrics" = false) : updateRhrFields r = Except.ok [] := by
  cases r with
  | jnull => rfl
  | jbool b => simp [rhrSafe] at hs
  | jnum q => simp [rhrSafe] at hs
  | jstr s => simp [rhrSafe] at hs
  | jarr l => simp [rhrSafe] at hs
  | jobj l =>
    have hlu : jlookup l "allMetrics" = none := by
      cases hlu2 : jlookup l "allMetrics" <;> simp_all [hasKeyB]
    unfold updateRhrFields
    split
    · simp [pyIn, hlu]
    · rfl

/-- An empty `WELLNESS_RESTING_HEART_RATE` metrics list yields no
field. -/
theorem updateRhrFields_empty_wellness (r : JVal) (hs : rhrSafe r = true)
    (hw : wellnessList r = some (.jarr [])) : updateRhrFields r = Except.ok [] := by
  cases r with
  | jnull => simp [wellnessList] at hw
  | jbool b => simp [wellnessList] at hw
  | jnum q => simp [wellnessList] at hw
  | jstr s => simp [wellnessList] at hw
  | jarr l => simp [wellnessList] at hw
  | jobj l =>
    cases hlu : jlookup l "allMetrics" with
    | none => simp [wellnessList, hlu] at hw
    | some am =>
      cases am with
      | jobj m =>
        cases hmm : jlookup m "metricsMap" with
        | none => simp [wellnessList, hlu, hmm] at hw
        | some mv =>
          cases mv with
          | jobj mm =>
            have hwl : jlookup mm "WELLNESS_RESTING_HEART_RATE" = some (.jarr []) := by
              simpa [wellnessList, hlu, hmm] using hw
            unfold updateRhrFields
            split
            · simp [pyIn, pyDictGet, hlu, hmm, hwl, pyTruthy]
            · rfl
          | jnull => simp [wellnessList, hlu, hmm] at hw
          | jbool b => simp [wellnessList, hlu, hmm] at hw
          | jnum q => simp [wellnessList, hlu, hmm] at hw
          | jstr s => simp [wellnessList, hlu, hmm] at hw
          | jarr a => simp [wellnessList, hlu, hmm] at hw
      | jnull => simp [wellnessList, hlu] at hw
      | jbool b => simp [wellnessList, hlu] at hw
      | jnum q => simp [wellnessList, hlu] at hw
      | jstr s => simp [wellnessList, hlu] at hw
      | jarr a => simp [wellnessList, hlu] at hw

/-- The per-record function applied by a page update keeps the `Date`
property. -/
theorem updRecord_preserves_date (pid : Nat) (ps : Props) (rec : NotionRecord) :
    (if rec.id == pid then { rec with props := mergeProps rec.props ps } else rec).date
      = rec.date := by
  split <;> rfl

/-- A page update never changes which records match a date query. -/
theorem countRecords_map_update (db : List NotionRecord) (pid : Nat) (ps : Props)
    (d : String) :
    countRecords
      (db.map (fun rec =>
        if rec.id == pid then { rec with props := mergeProps rec.props ps } else rec)) d
      = countRecords db d := by
  induction db with
  | nil => rfl
  | cons a t ih =>
    unfold countRecords at ih ⊢
    simp only [List.map_cons, List.filter_cons, updRecord_preserves_date]
    split <;> simp only [List.length_cons, ih]

/-- Date-match counting distributes over list append. -/
theorem countRecords_append (a b : List NotionRecord) (d : String) :
    countRecords (a ++ b) d = countRecords a d + countRecords b d := by
  unfold countRecords
  simp [List.filter_append]

/-- C1: with unchanged upstream data (one `DayEnv` used twice, at least
one metric present), a working locator (`queryFails = false`), no record
yet for the day, successful Notion API calls, and a bundle the mapper
can process, the first `syncDay` ends `created`, the second ends
`updated`, and exactly one record for the day exists afterwards — no
duplicate is created. -/
theorem syncDay_created_then_updated
    (env : DayEnv) (d : String) (db : List NotionRecord) (ps : Props)
    (hq : env.queryFails = false) (hc : env.createApiOk = true) (hu : env.updateApiOk = true)
    (hdata : hasData env = true)
    (hmap : createProperties d (fetchResult env.hrvFetch) (fetchResult env.rhrFetch)
      (fetchResult env.vo2Fetch) = Except.ok ps)
    (hnone : countRecords db d = 0) :
    (syncDay env d db).1 = Outcome.created ∧
      (syncDay env d (syncDay env d db).2.1).1 = Outcome.updated ∧
      countRecords (syncDay env d (syncDay env d db).2.1).2.1 d = 1 := by
  have hfil : db.filter (fun rec => rec.date == d) = [] := by
    have h0 := hnone
    unfold countRecords at h0
    exact List.length_eq_zero.mp h0
  have hee : entry_exists env.queryFails db d = [] := by
    simp [entry_exists, hq, hfil]
  obtain ⟨ps', hps'⟩ : ∃ ps', updateProperties (fetchResult env.hrvFetch)
      (fetchResult env.rhrFetch) (fetchResult env.vo2Fetch) = Except.ok ps' := by
    have hrel := createProps_eq_date_cons_updateProps d (fetchResult env.hrvFetch)
      (fetchResult env.rhrFetch) (fetchResult env.vo2Fetch)
    rw [hmap] at hrel
    cases hup : updateProperties (fetchResult env.hrvFetch) (fetchResult env.rhrFetch)
        (fetchResult env.vo2Fetch) with
    | error e => rw [hup] at hrel; simp [Except.map] at hrel
    | ok x => exact ⟨x, rfl⟩
  have h1 : syncDay env d db =
      (Outcome.created, db ++ [⟨db.length, d, ps⟩], [DbCall.query, DbCall.createCall]) := by
    simp [syncDay, hdata, hee, create_notion_entry, hmap, hc]
  have hfil1 : (db ++ [(⟨db.length, d, ps⟩ : NotionRecord)]).filter
      (fun rec => rec.date == d) = [⟨db.length, d, ps⟩] := by
    simp [List.filter_append, hfil]
  have hee1 : entry_exists env.queryFails (db ++ [⟨db.length, d, ps⟩]) d
      = [⟨db.length, d, ps⟩] := by
    simp [entry_exists, hq, hfil1]
  have h2 : syncDay env d (db ++ [⟨db.length, d, ps⟩]) =
      (Outcome.updated,
        (db ++ [(⟨db.length, d, ps⟩ : NotionRecord)]).map (fun rec =>
          if rec.id == db.length then { rec with props := mergeProps rec.props ps' }
          else rec),
        [DbCall.query, DbCall.updateCall]) := by
    simp [syncDay, hdata, hee1, update_notion_entry, hps', hu]
  refine ⟨by simp [h1], by simp [h1, h2], ?_⟩
  rw [h1]
  simp only []
  rw [h2]
  simp only []
  rw [countRecords_map_update, countRecords_append, hnone]
  simp [countRecords]

/-- The run visits every day: one outcome per requested day, whatever
happened on earlier days. -/
theorem runDays_length (days : List (DayEnv × String)) (db : List NotionRecord) :
    (runDays days db).1.length = days.length := by
  induction days generalizing db with
  | nil => rfl
  | cons day rest ih => simp [runDays, ih]

/-- The error tally is zero exactly when no day ended `failed`. -/
theorem runDays_err_zero_iff (days : List (DayEnv × String)) (db : List NotionRecord) :
    (runDays days db).2.2 = 0 ↔ ∀ o ∈ (runDays days db).1, o ≠ Outcome.failed := by
  induction days generalizing db with
  | nil => simp [runDays]
  | cons day rest ih =>
    by_cases hf : (syncDay day.1 day.2 db).1 = Outcome.failed <;>
      simp [runDays, hf, ih]

/-- C1 witness: a concrete run of the theorem on a VO2-only bundle and an
empty database. -/
theorem syncDay_created_then_updated_witness :
    (syncDay ⟨Except.error (), Except.error (), Except.ok (.jobj [("vo2MaxValue", .jnum 40)]),
        false, true, true⟩ "2024-01-01" []).1 = Outcome.created ∧
      (syncDay ⟨Except.error (), Except.error (), Except.ok (.jobj [("vo2MaxValue", .jnum 40)]),
          false, true, true⟩ "2024-01-01"
        (syncDay ⟨Except.error (), Except.error (),
            Except.ok (.jobj [("vo2MaxValue", .jnum 40)]), false, true, true⟩
          "2024-01-01" []).2.1).1 = Outcome.updated ∧
      countRecords
        (syncDay ⟨Except.error (), Except.error (),
            Except.ok (.jobj [("vo2MaxValue", .jnum 40)]), false, true, true⟩ "2024-01-01"
          (syncDay ⟨Except.error (), Except.error (),
              Except.ok (.jobj [("vo2MaxValue", .jnum 40)]), false, true, true⟩
            "2024-01-01" []).2.1).2.1 "2024-01-01" = 1 :=
  syncDay_created_then_updated
    ⟨Except.error (), Except.error (), Except.ok (.jobj [("vo2MaxValue", .jnum 40)]),
      false, true, true⟩
    "2024-01-01" []
    [("Date", PropValue.date "2024-01-01"), ("VO2 Max", PropValue.number (.jnum 40))]
    rfl rfl rfl rfl rfl rfl

/-- C2 counterexample: the mapper can raise instead of treating a path
as absent — a null value at the intermediate node `hrvSummary` raises a
`TypeError` (`'lastNightAvg' in None`) on both code paths, and a null
resting-heart-rate `value` leaf raises a `TypeError` (`int(None)`); the
exceptions escape the mapping step to the enclosing handler. -/
theorem mapper_raises_on_null_intermediate :
    createProperties "2024-01-01" (.jobj [("hrvSummary", JVal.jnull)]) JVal.jnull JVal.jnull
        = Except.error PyErr.typeError ∧
      updateProperties (.jobj [("hrvSummary", JVal.jnull)]) JVal.jnull JVal.jnull
        = Except.error PyErr.typeError ∧
      updateProperties JVal.jnull
        (.jobj [("allMetrics", .jobj [("metricsMap",
          .jobj [("WELLNESS_RESTING_HEART_RATE", .jarr [.jobj [("value", JVal.jnull)]])])])])
        JVal.jnull
        = Except.error PyErr.typeError :=
  ⟨rfl, rfl, rfl⟩

/-- C2 (amended): on dict-shaped bundles — each payload absent or a
dict, every present node along a source path of the expected dict/list
shape, and the resting-heart-rate `value` leaf, when present, one
`int()` accepts — the mapper never raises, and a key missing at any
depth of a source path produces no output field for that path: a missing
top key kills all of its payload's fields, a missing HRV or VO2 leaf
key produces no field of that name, and a missing `metricsMap`,
`WELLNESS_RESTING_HEART_RATE` or first-element `value` key — or an
empty metrics list — produces no `Resting Heart Rate` field. -/
theorem mapper_total_on_dict_shaped (h r v : JVal)
    (hh : hrvSafe h = true) (hr : rhrSafe r = true) (hv : vo2Safe v = true) :
    (∃ ps, updateProperties h r v = Except.ok ps) ∧
      (hasKeyB h "hrvSummary" = false → updateHrvFields h = Except.ok []) ∧
      (hrvLeaf h "lastNightAvg" = none →
        ∀ ps, updateHrvFields h = Except.ok ps → "Last Night HRV" ∉ ps.map Prod.fst) ∧
      (hrvLeaf h "weeklyAvg" = none →
        ∀ ps, updateHrvFields h = Except.ok ps → "Weekly Avg HRV" ∉ ps.map Prod.fst) ∧
      (hrvLeaf h "status" = none →
        ∀ ps, updateHrvFields h = Except.ok ps → "HRV Status" ∉ ps.map Prod.fst) ∧
      (hasKeyB r "allMetrics" = false → updateRhrFields r = Except.ok []) ∧
      (rhrValueLeaf r = none → updateRhrFields r = Except.ok []) ∧
      (wellnessList r = some (.jarr []) → updateRhrFields r = Except.ok []) ∧
      (vo2Leaf v "vo2MaxValue" = none →
        ∀ ps, updateVo2Fields v = Except.ok ps → "VO2 Max" ∉ ps.map Prod.fst) ∧
      (vo2Leaf v "fitnessAge" = none →
        ∀ ps, updateVo2Fields v = Except.ok ps → "Fitness Age" ∉ ps.map Prod.fst) := by
  refine ⟨updateProperties_ok_of_safe h r v hh hr hv,
    fun hk => updateHrvFields_no_key h hh hk,
    ?_, ?_, ?_,
    fun hk => updateRhrFields_no_key r hr hk,
    ?_,
    fun hw => updateRhrFields_empty_wellness r hr hw,
    ?_, ?_⟩
  · intro hk ps hps hmem
    rw [updateHrvFields_char h hh] at hps
    injection hps with hips
    subst hips
    rw [hk] at hmem
    simp only [List.map_append, List.mem_append] at hmem
    rcases hmem with (h1 | h2) | h3
    · simp at h1
    · exact mem_leafMatch_keys (by decide) h2
    · exact mem_leafMatch_keys (by decide) h3
  · intro hk ps hps hmem
    rw [updateHrvFields_char h hh] at hps
    injection hps with hips
    subst hips
    rw [hk] at hmem
    simp only [List.map_append, List.mem_append] at hmem
    rcases hmem with (h1 | h2) | h3
    · exact mem_leafMatch_keys (by decide) h1
    · simp at h2
    · exact mem_leafMatch_keys (by decide) h3
  · intro hk ps hps hmem
    rw [updateHrvFields_char h hh] at hps
    injection hps with hips
    subst hips
    rw [hk] at hmem
    simp only [List.map_append, List.mem_append] at hmem
    rcases hmem with (h1 | h2) | h3
    · exact mem_leafMatch_keys (by decide) h1
    · exact mem_leafMatch_keys (by decide) h2
    · simp at h3
  · intro hk
    rw [updateRhrFields_char r hr, hk]
  · intro hk ps hps hmem
    rw [updateVo2Fields_char v hv] at hps
    injection hps with hips
    subst hips
    rw [hk] at hmem
    simp only [List.map_append, List.mem_append] at hmem
    rcases hmem with h1 | h2
    · simp at h1
    · exact mem_leafMatch_keys (by decide) h2
  · intro hk ps hps hmem
    rw [updateVo2Fields_char v hv] at hps
    injection hps with hips
    subst hips
    rw [hk] at hmem
    simp only [List.map_append, List.mem_append] at hmem
    rcases hmem with h1 | h2
    · exact mem_leafMatch_keys (by decide) h1
    · simp at h2

/-- C2 witness: a concrete dict-shaped bundle with an empty metrics list
maps without exception and produces no `Resting Heart Rate` field. -/
theorem mapper_total_on_dict_shaped_witness :
    (∃ ps, updateProperties JVal.jnull
        (.jobj [("allMetrics", .jobj [("metricsMap",
          .jobj [("WELLNESS_RESTING_HEART_RATE", .jarr [])])])]) JVal.jnull
        = Except.ok ps) ∧
      updateRhrFields (.jobj [("allMetrics", .jobj [("metricsMap",
        .jobj [("WELLNESS_RESTING_HEART_RATE", .jarr [])])])]) = Except.ok [] :=
  ⟨(mapper_total_on_dict_shaped JVal.jnull
      (.jobj [("allMetrics", .jobj [("metricsMap",
        .jobj [("WELLNESS_RESTING_HEART_RATE", .jarr [])])])])
      JVal.jnull rfl rfl rfl).1,
    (mapper_total_on_dict_shaped JVal.jnull
      (.jobj [("allMetrics", .jobj [("metricsMap",
        .jobj [("WELLNESS_RESTING_HEART_RATE", .jarr [])])])])
      JVal.jnull rfl rfl rfl).2.2.2.2.2.2.2.1 rfl⟩

/-- C3: when all three sub-fetches raise, every payload variable stays
`None`, the day is skipped, and no Notion call at all is issued. -/
theorem syncDay_all_absent_skips (u1 u2 u3 : Unit) (qf c u : Bool) (d : String)
    (db : List NotionRecord) :
    syncDay ⟨Except.error u1, Except.error u2, Except.error u3, qf, c, u⟩ d db
      = (Outcome.skipped, db, []) :=
  rfl

/-- C4: a non-empty metrics list whose first element carries a numeric
`value` yields `Resting Heart Rate` equal to that value truncated to an
integer, ignoring all later entries; in particular a first value of
47.9 maps to 47. -/
theorem rhr_uses_first_element (d : String) (q : ℚ) (rest : List JVal) :
    createProperties d JVal.jnull
        (.jobj [("allMetrics", .jobj [("metricsMap", .jobj [("WELLNESS_RESTING_HEART_RATE",
          .jarr (.jobj [("value", .jnum q)] :: rest))])])]) JVal.jnull
        = Except.ok [("Date", PropValue.date d),
            ("Resting Heart Rate", PropValue.number (.jnum ((ratTrunc q : ℤ) : ℚ)))] ∧
      createProperties d JVal.jnull
        (.jobj [("allMetrics", .jobj [("metricsMap", .jobj [("WELLNESS_RESTING_HEART_RATE",
          .jarr [.jobj [("value", .jnum (mkRat 479 10))]])])])]) JVal.jnull
        = Except.ok [("Date", PropValue.date d),
            ("Resting Heart Rate", PropValue.number (.jnum 47))] := by
  constructor
  · simp [createProperties, createHrvFields, createRhrFields, createVo2Fields,
      pyTruthy, pyIn, jlookup, pyDictGet, pyGetItemStr, pyGetItemZero, pyLen, pyInt]
  · rfl

/-- C5: every successfully built create payload carries the `Date` field
set to the day key, and no successfully built update payload carries a
`Date` field at all. -/
theorem date_field_create_only (d : String) (h r v : JVal) :
    (∀ ps, createProperties d h r v = Except.ok ps →
      ("Date", PropValue.date d) ∈ ps) ∧
    (∀ ps, updateProperties h r v = Except.ok ps → ∀ p ∈ ps, p.1 ≠ "Date") := by
  constructor
  · intro ps hps
    rw [createProps_eq_date_cons_updateProps] at hps
    cases hup : updateProperties h r v with
    | error e => rw [hup] at hps; simp [Except.map] at hps
    | ok ps' =>
      rw [hup] at hps
      simp only [Except.map, Except.ok.injEq] at hps
      subst hps
      exact List.mem_cons_self _ _
  · intro ps hps p hp
    unfold updateProperties at hps
    cases h1 : updateHrvFields h with
    | error e => rw [h1] at hps; simp at hps
    | ok p1 =>
      rw [h1] at hps
      cases h2 : updateRhrFields r with
      | error e => rw [h2] at hps; simp at hps
      | ok p2 =>
        rw [h2] at hps
        cases h3 : updateVo2Fields v with
        | error e => rw [h3] at hps; simp at hps
        | ok p3 =>
          rw [h3] at hps
          simp only [Except.ok.injEq] at hps
          subst hps
          rcases List.mem_append.mp hp with hp' | hp'
          · rcases List.mem_append.mp hp' with hp'' | hp''
            · rcases updateHrvFields_keys h1 p hp'' with hk | hk | hk <;> simp [hk]
            · have hk := updateRhrFields_keys h2 p hp''
              simp [hk]
          · rcases updateVo2Fields_keys h3 p hp' with hk | hk <;> simp [hk]

/-- C5 witness: a concrete create payload contains its `Date` field and a
concrete update payload has none. -/
theorem date_field_create_only_witness :
    (("Date", PropValue.date "2024-01-01")
        ∈ [("Date", PropValue.date "2024-01-01")]) ∧
      (∀ p ∈ ([] : Props), p.1 ≠ "Date") :=
  ⟨(date_field_create_only "2024-01-01" JVal.jnull JVal.jnull JVal.jnull).1 _ rfl,
    (date_field_create_only "2024-01-01" JVal.jnull JVal.jnull JVal.jnull).2 [] rfl⟩

/-- C6: when the locator query raises, the locator reports no existing
record and the coordinator issues the query and then attempts a create —
never an update, and the locator failure alone marks nothing failed. -/
theorem locator_failure_attempts_create (env : DayEnv) (d : String)
    (db : List NotionRecord) (hq : env.queryFails = true) (hdata : hasData env = true) :
    entry_exists env.queryFails db d = [] ∧
      (syncDay env d db).2.2 = [DbCall.query, DbCall.createCall] := by
  have hee : entry_exists env.queryFails db d = [] := by simp [entry_exists, hq]
  exact ⟨hee, by simp [syncDay, hdata, hee]⟩

/-- C6 witness: a concrete day with a failing locator query attempts a
create. -/
theorem locator_failure_attempts_create_witness :
    entry_exists true [] "2024-01-01" = [] ∧
      (syncDay ⟨Except.error (), Except.error (), Except.ok (.jobj [("vo2MaxValue", .jnum 40)]),
          true, true, true⟩ "2024-01-01" []).2.2 = [DbCall.query, DbCall.createCall] :=
  locator_failure_attempts_create
    ⟨Except.error (), Except.error (), Except.ok (.jobj [("vo2MaxValue", .jnum 40)]),
      true, true, true⟩
    "2024-01-01" [] rfl rfl

/-- C7: a failure of any one of the three sub-fetches is
indistinguishable from that metric being absent, with the other two
fetch results untouched — stated for the HRV, the RHR and the VO2 slot
in turn; concretely, with HRV and RHR data present and the VO2 fetch
raising, the day still ends `created` with the HRV and RHR fields. -/
theorem fetch_failure_isolated (fh fr fv : Except Unit JVal) (e : Unit) (qf c u : Bool)
    (d : String) (db : List NotionRecord) :
    syncDay ⟨Except.error e, fr, fv, qf, c, u⟩ d db
        = syncDay ⟨Except.ok JVal.jnull, fr, fv, qf, c, u⟩ d db ∧
      syncDay ⟨fh, Except.error e, fv, qf, c, u⟩ d db
        = syncDay ⟨fh, Except.ok JVal.jnull, fv, qf, c, u⟩ d db ∧
      syncDay ⟨fh, fr, Except.error e, qf, c, u⟩ d db
        = syncDay ⟨fh, fr, Except.ok JVal.jnull, qf, c, u⟩ d db ∧
      syncDay
        ⟨Except.ok (.jobj [("hrvSummary", .jobj [("lastNightAvg", .jnum 55)])]),
          Except.ok (.jobj [("allMetrics", .jobj [("metricsMap",
            .jobj [("WELLNESS_RESTING_HEART_RATE",
              .jarr [.jobj [("value", .jnum (mkRat 479 10))]])])])]),
          Except.error e, false, true, true⟩ "2024-01-02" []
        = (Outcome.created,
            [⟨0, "2024-01-02",
              [("Date", PropValue.date "2024-01-02"),
                ("Last Night HRV", PropValue.number (.jnum 55)),
                ("Resting Heart Rate", PropValue.number (.jnum 47))]⟩],
            [DbCall.query, DbCall.createCall]) :=
  ⟨rfl, rfl, rfl, rfl⟩

/-- C8: the exit signal is `0` exactly when no processed day ended
`failed`, and the run always processes every requested day (one outcome
per day — a failed day never aborts the rest). -/
theorem exit_zero_iff_no_failed_day (days : List (DayEnv × String))
    (db : List NotionRecord) :
    (exitSignal days db = 0 ↔ ∀ o ∈ (runDays days db).1, o ≠ Outcome.failed) ∧
      (runDays days db).1.length = days.length := by
  refine ⟨?_, runDays_length days db⟩
  have h := runDays_err_zero_iff days db
  unfold exitSignal
  split
  · simp_all
  · simp_all

/-- C9 counterexample: with the default count of 1 the loop is
`range(1)`, i.e. only offset 0 (today); yesterday (offset 1) is not
processed, contradicting "the default covers yesterday and today". -/
theorem default_day_count_excludes_yesterday :
    processedOffsets daysBackDefault = [0] ∧ 1 ∉ processedOffsets daysBackDefault := by
  decide

/-- C9 (amended): a count of `n` covers exactly the `n` most-recent day
offsets ending today (offsets `0 … n-1`); the default count of 1 covers
today only, not yesterday. -/
theorem offsets_cover_n_recent_days (n : Nat) :
    (∀ k, k ∈ processedOffsets n ↔ k < n) ∧ processedOffsets daysBackDefault = [0] :=
  ⟨fun k => by simp [processedOffsets, List.mem_range], by decide⟩

/-- C10: the update-side property set is exactly the create-side
property set with the `Date` field removed — the two duplicated mapping
paths agree field-for-field on every input, including on which exception
they raise. -/
theorem update_props_eq_create_minus_date (d : String) (h r v : JVal) :
    createProperties d h r v =
        Except.map (fun l => ("Date", PropValue.date d) :: l) (updateProperties h r v) ∧
      updateProperties h r v =
        Except.map (fun l => List.eraseP (fun p => p.1 == "Date") l)
          (createProperties d h r v) := by
  refine ⟨createProps_eq_date_cons_updateProps d h r v, ?_⟩
  rw [createProps_eq_date_cons_updateProps d h r v]
  cases updateProperties h r v with
  | error e => rfl
  | ok ps => simp [Except.map]


end GarminSync

